import Mathlib

/-!
Shallow embedding of `price_label.py` (a product-label generator).

The program is a linear pipeline: format a price from minor units through a
template (`format_price`), fetch product metadata over HTTP
(`fetch_product_info`), render a barcode, compute a two-region layout from
measured text widths, paint, and save (`create_label`), with CLI validation
and error mapping in `main`.

Modelling conventions:
* machine-independent integers are `Nat`/`Int`;
* fallible code returns `Except String _` (Python exceptions);
* the network is a function `String → HttpResponse` from the request URL to
  the (already JSON-parsed) response;
* font measurement (`draw.textbbox` widths) is a parameter `String → Nat`,
  one per font size;
* the external barcode library (`EAN13(...)`) is a parameter
  `String → Except String Unit` recording only success/failure;
* file writes and printed lines are returned as data, never performed.
-/

/-- Association-list lookup used to model the keyword arguments passed to
Python `str.format` (`maj=`, `min=`, `price=`). -/
def lookupEnv (name : String) : List (String × String) → Option String
  | [] => none
  | (k, v) :: rest => if k = name then some v else lookupEnv name rest

/-- Model of Python `str.format` over a template, restricted to plain
`{name}` replacement fields as used by this program.  The first argument is
the parser state: `none` when scanning literal text, `some acc` when inside
a `{...}` field with `acc` the (reversed) field name read so far.  `{{` and
`}}` are the literal-brace escapes; a lone `}` in literal text, an
unterminated field, and a field name missing from the keyword environment
are errors, as in Python. -/
def pyFormatAux (env : List (String × String)) : Option (List Char) → List Char → Except String String
  | none, [] => .ok ""
  | none, c :: cs =>
    if c = '{' then
      if cs.head? = some '{' then (fun s => "\x7b" ++ s) <$> pyFormatAux env none cs.tail
      else pyFormatAux env (some []) cs
    else if c = '}' then
      if cs.head? = some '}' then (fun s => "\x7d" ++ s) <$> pyFormatAux env none cs.tail
      else .error "Single closing brace encountered in format string"
    else
      (fun s => String.singleton c ++ s) <$> pyFormatAux env none cs
  | some _, [] => .error "Single opening brace encountered in format string"
  | some acc, c :: cs =>
    if c = '}' then
      match lookupEnv (String.mk acc.reverse) env with
      | none => .error ("KeyError: " ++ String.mk acc.reverse)
      | some v => (fun s => v ++ s) <$> pyFormatAux env none cs
    else
      pyFormatAux env (some (c :: acc)) cs
termination_by _ l => l.length
decreasing_by all_goals (simp [List.length_tail]; try omega)

/-- Python `template.format(**env)`. -/
def pyFormat (template : String) (env : List (String × String)) : Except String String :=
  pyFormatAux env none template.data

/-- Decision procedure, with the same field-parsing structure as
`pyFormatAux`, for whether a template references a replacement-field name
outside the given key list (the condition under which Python `str.format`
raises `KeyError`). -/
def refsUnknown (keys : List String) : Option (List Char) → List Char → Bool
  | none, [] => false
  | none, c :: cs =>
    if c = '{' then
      if cs.head? = some '{' then refsUnknown keys none cs.tail
      else refsUnknown keys (some []) cs
    else if c = '}' then
      if cs.head? = some '}' then refsUnknown keys none cs.tail
      else false
    else refsUnknown keys none cs
  | some _, [] => false
  | some acc, c :: cs =>
    if c = '}' then
      !(keys.contains (String.mk acc.reverse)) || refsUnknown keys none cs
    else refsUnknown keys (some (c :: acc)) cs
termination_by _ l => l.length
decreasing_by all_goals (simp [List.length_tail]; try omega)

/-- Python `f"{n:02d}"` for a natural number: zero-pad the decimal
representation to two digits. -/
def pad2 (n : Nat) : String :=
  if n < 10 then "0" ++ Nat.repr n else Nat.repr n

/-- Embedding of `format_price(price_minor_units, template='${price}')`
(`src/price_label.py` lines 13–27): `maj = price // 100`,
`min_units = price % 100`, `price_str = f"{maj}.{min_units:02d}"`, then
`template.format(maj=maj, min=f"{min_units:02d}", price=price_str)`. -/
def format_price (price_minor_units : Nat) (template : String := "${price}") : Except String String :=
  let maj := price_minor_units / 100
  let min_units := price_minor_units % 100
  let price_str := Nat.repr maj ++ "." ++ pad2 min_units
  pyFormat template [("maj", Nat.repr maj), ("min", pad2 min_units), ("price", price_str)]

/-- Decimal digit characters of a natural number, most significant digit
first; this characterizes `Nat.repr` (Python `str(n)`). -/
def decChars (n : Nat) : List Char :=
  if n < 10 then [Nat.digitChar n] else decChars (n / 10) ++ [Nat.digitChar (n % 10)]
decreasing_by exact Nat.div_lt_self (by omega) (by omega)

/-- Value of a list of decimal digit characters, as read back by a decimal
parser (fold accumulating `acc * 10 + digit`). -/
def parseDigits (l : List Char) : Nat :=
  l.foldl (fun acc c => acc * 10 + (c.toNat - 48)) 0

/-- Recognizer for a dot followed by exactly two digit characters and
nothing else: the `\.\d\x7b2\x7d$` tail of the price pattern. -/
def digitsDotTwo : List Char → Bool
  | ['.', d1, d2] => d1.isDigit && d2.isDigit
  | _ => false

/-- Recognizer for the pattern `^\$\d+\.\d\x7b2\x7d$`: a dollar sign, one
or more digits, a dot, exactly two digits. -/
def matchesPricePattern (s : String) : Bool :=
  match s.data with
  | '$' :: rest =>
    !(rest.takeWhile Char.isDigit).isEmpty && digitsDotTwo (rest.dropWhile Char.isDigit)
  | _ => false

/-- Decoder inverse to the `"${price}"` rendering: strip the dollar sign,
parse the major digits before the dot and the two minor digits after it,
and recombine as `maj * 100 + min`. -/
def parsePriceBack (s : String) : Option Nat :=
  match s.data with
  | '$' :: rest =>
    let majC := rest.takeWhile Char.isDigit
    match rest.dropWhile Char.isDigit with
    | ['.', d1, d2] =>
      if !majC.isEmpty && d1.isDigit && d2.isDigit then
        some (parseDigits majC * 100 + parseDigits [d1, d2])
      else none
    | _ => none
  | _ => none

/-- The normalized product record returned by `fetch_product_info` and
consumed by `create_label` (a Python dict with keys name/producer/ean). -/
structure ProductRec where
  name : String
  producer : String
  ean : String
  deriving DecidableEq, Repr

/-- The `product` object of the Open Food Facts JSON envelope; each field is
`none` when absent from the response. -/
structure ApiProduct where
  product_name : Option String
  brands : Option String
  deriving DecidableEq, Repr

/-- The JSON body of a lookup response: `status` (`none` when absent) and
the optional `product` object. -/
structure ApiBody where
  status : Option Int
  product : Option ApiProduct
  deriving DecidableEq, Repr

/-- An HTTP response: status code plus parsed JSON body. -/
structure HttpResponse where
  status_code : Nat
  body : ApiBody
  deriving DecidableEq, Repr

/-- Domain selection of `fetch_product_info` (`src/price_label.py` lines
37–41): Python `if language and language != 'world'` tests string
truthiness, so the prefix is used exactly when the hint is non-empty and
not `"world"`. -/
def lookupDomain (language : String) : String :=
  if ¬language.isEmpty ∧ language ≠ "world" then language ++ ".openfoodfacts.org"
  else "world.openfoodfacts.org"

/-- Request URL of `fetch_product_info` (`src/price_label.py` line 43). -/
def lookupUrl (ean_code language : String) : String :=
  "https://" ++ lookupDomain language ++ "/api/v0/product/" ++ ean_code ++ ".json"

/-- Embedding of `fetch_product_info(ean_code, language)`
(`src/price_label.py` lines 30–60).  `http` stands for `requests.get`,
mapping the request URL to a response.  Non-200 status and body
`status != 1` raise; otherwise fields default to `"Unknown Product"` /
`"Unknown Brand"` when absent (`dict.get` with defaults). -/
def fetch_product_info (ean_code : String) (language : String)
    (http : String → HttpResponse) : Except String ProductRec :=
  let url := lookupUrl ean_code language
  let response := http url
  if response.status_code ≠ 200 then
    .error ("Failed to fetch product info: HTTP " ++ Nat.repr response.status_code)
  else if response.body.status ≠ some 1 then
    .error ("Product not found for EAN: " ++ ean_code)
  else
    let product := response.body.product.getD ⟨none, none⟩
    .ok { name := product.product_name.getD "Unknown Product",
          producer := product.brands.getD "Unknown Brand",
          ean := ean_code }

/-- Python truthiness of an optional string argument: `None` and `""` are
falsy, any non-empty string is truthy. -/
def pyTruthy : Option String → Bool
  | none => false
  | some s => !s.isEmpty

/-- Product resolution step of `create_label` (`src/price_label.py` lines
116–129).  Returns whether `fetch_product_info` was invoked, paired with
the resolved record: when both overrides are truthy the record is built
wholly from them and the lookup is skipped; otherwise the lookup result is
taken and each truthy override replaces its field. -/
def resolveProduct (ean_code : String) (custom_name custom_producer : Option String)
    (lookupResult : Except String ProductRec) : Bool × Except String ProductRec :=
  if pyTruthy custom_name && pyTruthy custom_producer then
    (false, .ok { name := custom_name.getD "", producer := custom_producer.getD "", ean := ean_code })
  else
    (true, do
      let product_info ← lookupResult
      let product_info :=
        if pyTruthy custom_name then { product_info with name := custom_name.getD "" }
        else product_info
      let product_info :=
        if pyTruthy custom_producer then { product_info with producer := custom_producer.getD "" }
        else product_info
      pure product_info)

/-- Layout constant: `DPI = 8` dots per mm (`src/price_label.py` line 107). -/
def DPI : Nat := 8

/-- Layout constant: canvas height `int(48 * DPI)` px (lines 108, 112). -/
def height_px : Nat := 48 * DPI

/-- Layout constant: left margin `int(5 * DPI)` px (lines 109, 113). -/
def padding_left_px : Nat := 5 * DPI

/-- Layout constant: internal padding `int(3 * DPI)` px (line 114). -/
def padding_internal : Nat := 3 * DPI

/-- Layout constant: barcode target width `int(30 * DPI)` px (line 179). -/
def barcode_width_px : Nat := 30 * DPI

/-- Computed pixel geometry of one label. -/
structure Layout where
  left_width : Nat
  right_width : Nat
  total_width : Nat
  height : Nat
  deriving DecidableEq, Repr

/-- Layout arithmetic of `create_label` (`src/price_label.py` lines
179–193) from the four measured text widths: left region is the maximum of
name, producer, EAN-line and barcode widths plus twice the internal
padding; right region is the price width plus twice the internal padding;
total width adds the left margin. -/
def computeLayout (name_width producer_width ean_width price_width : Nat) : Layout :=
  let left_width := max (max (max name_width producer_width) ean_width) barcode_width_px
      + padding_internal * 2
  let right_width := price_width + padding_internal * 2
  { left_width := left_width,
    right_width := right_width,
    total_width := padding_left_px + left_width + right_width,
    height := height_px }

/-- The observable outcome of a successful `create_label` call: the saved
file path and the final pixel dimensions. -/
structure LabelResult where
  path : String
  width : Nat
  height : Nat
  deriving DecidableEq, Repr

/-- Embedding of `create_label` (`src/price_label.py` lines 92–230).
Returns whether the product lookup was invoked, paired with the outcome.
Steps in source order: resolve the product record (overrides vs lookup),
format the price, render the barcode (external library, modelled as a
fallible oracle), measure the four text widths (`measureBody` at 5 mm,
`measureBig` at 12 mm), compute the layout, and only then produce the
saved file with its dimensions.  Any earlier failure propagates and no
file is produced. -/
def createLabelRun (ean_code : String) (price_minor_units : Nat) (output_file language price_format : String)
    (custom_name custom_producer : Option String)
    (http : String → HttpResponse) (barcodeRender : String → Except String Unit)
    (measureBody measureBig : String → Nat) : Bool × Except String LabelResult :=
  let resolved :=
    resolveProduct ean_code custom_name custom_producer (fetch_product_info ean_code language http)
  (resolved.1, do
    let product_info ← resolved.2
    let price_text ← format_price price_minor_units price_format
    let _ ← barcodeRender ean_code
    let name_width := measureBody product_info.name
    let producer_width := measureBody product_info.producer
    let ean_width := measureBody ("EAN: " ++ ean_code)
    let price_width := measureBig price_text
    let layout := computeLayout name_width producer_width ean_width price_width
    pure { path := output_file, width := layout.total_width, height := layout.height })

/-- Python `str.isdigit()` for the ASCII digits this program deals in:
false on the empty string, true iff every character is a digit. -/
def pyIsDigit (s : String) : Bool :=
  !s.data.isEmpty && s.data.all Char.isDigit

/-- The observable outcome of one CLI invocation: exit code, printed
lines, and the list of files written. -/
structure MainResult where
  exitCode : Nat
  lines : List String
  files : List String
  deriving DecidableEq, Repr

/-- Embedding of `main` (`src/price_label.py` lines 232–273).  After
argument parsing: `parser.error` (exit 2, no work done) when the EAN is
not exactly 13 digits or the price is negative; otherwise run
`create_label`, mapping any exception to a single `Error: ...` line and
exit code 1, and success to exit code 0 with the two report lines (the
second line's millimetre suffix, a float rendering, is elided). -/
def mainRun (ean : String) (price : Int) (output language price_format : String)
    (custom_name custom_producer : Option String)
    (http : String → HttpResponse) (barcodeRender : String → Except String Unit)
    (measureBody measureBig : String → Nat) : MainResult :=
  if !(pyIsDigit ean) || ean.length ≠ 13 then
    { exitCode := 2, lines := ["EAN must be exactly 13 digits"], files := [] }
  else if price < 0 then
    { exitCode := 2, lines := ["Price must be non-negative"], files := [] }
  else
    match (createLabelRun ean price.toNat output language price_format custom_name custom_producer
        http barcodeRender measureBody measureBig).2 with
    | .error e => { exitCode := 1, lines := ["Error: " ++ e], files := [] }
    | .ok r =>
      { exitCode := 0,
        lines := ["Label saved to " ++ r.path,
                  "Dimensions: " ++ Nat.repr r.width ++ "x" ++ Nat.repr r.height ++ " pixels"],
        files := [r.path] }

/-! ## Supporting lemmas: decimal representation -/

theorem digitChar_isDigit : ∀ m, m < 10 → (Nat.digitChar m).isDigit = true := by decide

theorem digitChar_toNat_sub : ∀ m, m < 10 → (Nat.digitChar m).toNat - 48 = m := by decide

theorem toDigitsCore_eq_decChars :
    ∀ fuel n ds, n < fuel → Nat.toDigitsCore 10 fuel n ds = decChars n ++ ds := by
  intro fuel
  induction fuel with
  | zero => intro n ds h; omega
  | succ f ih =>
    intro n ds h
    by_cases h10 : n < 10
    · have hdiv : n / 10 = 0 := Nat.div_eq_of_lt h10
      simp [Nat.toDigitsCore, hdiv, decChars, h10, Nat.mod_eq_of_lt h10]
    · have hdiv : ¬ n / 10 = 0 := by
        intro hc; exact h10 (by omega)
      have hstep : Nat.toDigitsCore 10 (f + 1) n ds
          = Nat.toDigitsCore 10 f (n / 10) (Nat.digitChar (n % 10) :: ds) := by
        simp [Nat.toDigitsCore, hdiv]
      have hlt : n / 10 < f := by
        have : n / 10 < n := Nat.div_lt_self (by omega) (by omega)
        omega
      rw [hstep, ih _ _ hlt]
      conv_rhs => rw [decChars]
      simp [h10]

theorem repr_data_eq_decChars (n : Nat) : (Nat.repr n).data = decChars n := by
  show (Nat.toDigits 10 n).asString.data = decChars n
  rw [Nat.toDigits, toDigitsCore_eq_decChars (n + 1) n [] (Nat.lt_succ_self n)]
  simp [List.asString]

theorem decChars_all_digits (n : Nat) : ∀ c ∈ decChars n, c.isDigit = true := by
  induction n using Nat.strong_induction_on with
  | _ n ih =>
    by_cases h : n < 10
    · rw [decChars]
      simp only [if_pos h, List.mem_singleton]
      intro c hc
      exact hc ▸ digitChar_isDigit n h
    · rw [decChars]
      simp only [if_neg h, List.mem_append, List.mem_singleton]
      intro c hc
      rcases hc with hc | hc
      · exact ih (n / 10) (Nat.div_lt_self (by omega) (by omega)) c hc
      · exact hc ▸ digitChar_isDigit (n % 10) (Nat.mod_lt n (by omega))

theorem decChars_ne_nil (n : Nat) : decChars n ≠ [] := by
  rw [decChars]
  by_cases h : n < 10 <;> simp [h]

theorem decChars_foldl (n : Nat) :
    ∀ acc, (decChars n).foldl (fun acc c => acc * 10 + (c.toNat - 48)) acc
      = acc * 10 ^ (decChars n).length + n := by
  induction n using Nat.strong_induction_on with
  | _ n ih =>
    intro acc
    by_cases h : n < 10
    · rw [decChars]
      simp [h, digitChar_toNat_sub n h]
    · rw [decChars]
      simp only [if_neg h, List.foldl_append, List.length_append, List.length_singleton,
        List.foldl_cons, List.foldl_nil]
      rw [ih (n / 10) (Nat.div_lt_self (by omega) (by omega)) acc]
      rw [digitChar_toNat_sub (n % 10) (Nat.mod_lt n (by omega))]
      rw [pow_succ]
      ring_nf
      omega

theorem parseDigits_decChars (n : Nat) : parseDigits (decChars n) = n := by
  rw [parseDigits, decChars_foldl n 0]
  simp

theorem takeWhile_append_of_all {p : Char → Bool} :
    ∀ l₁ l₂ : List Char, (∀ c ∈ l₁, p c = true) →
      (l₁ ++ l₂).takeWhile p = l₁ ++ l₂.takeWhile p := by
  intro l₁
  induction l₁ with
  | nil => simp
  | cons c cs ih =>
    intro l₂ h
    have hc : p c = true := h c (by simp)
    simp [List.takeWhile, hc]
    exact ih l₂ (fun d hd => h d (by simp [hd]))

theorem dropWhile_append_of_all {p : Char → Bool} :
    ∀ l₁ l₂ : List Char, (∀ c ∈ l₁, p c = true) →
      (l₁ ++ l₂).dropWhile p = l₂.dropWhile p := by
  intro l₁
  induction l₁ with
  | nil => simp
  | cons c cs ih =>
    intro l₂ h
    have hc : p c = true := h c (by simp)
    simp [List.dropWhile, hc]
    exact ih l₂ (fun d hd => h d (by simp [hd]))

/-- Digit characters of Python `f"{m:02d}"` for `m < 100`. -/
theorem pad2_data (m : Nat) (h : m < 100) :
    (pad2 m).data = [Nat.digitChar (m / 10), Nat.digitChar (m % 10)] := by
  by_cases h10 : m < 10
  · have hdiv : m / 10 = 0 := Nat.div_eq_of_lt h10
    rw [pad2]
    simp only [if_pos h10, String.data_append, repr_data_eq_decChars]
    rw [decChars]
    simp [h10, hdiv, Nat.mod_eq_of_lt h10]
    rfl
  · rw [pad2]
    simp only [if_neg h10, repr_data_eq_decChars]
    rw [decChars]
    have hdivlt : m / 10 < 10 := by omega
    simp only [if_neg h10]
    rw [decChars]
    simp [hdivlt]

/-! ## Supporting lemmas: the default price template -/

theorem format_price_default_eq (p : Nat) :
    format_price p "${price}" = .ok ("$" ++ (Nat.repr (p / 100) ++ "." ++ pad2 (p % 100))) := by
  simp [format_price, pyFormat, pyFormatAux, lookupEnv]
  rfl

theorem priceMod_lt (p : Nat) : p % 100 < 100 := Nat.mod_lt p (by omega)

theorem default_render_data (p : Nat) :
    ("$" ++ (Nat.repr (p / 100) ++ "." ++ pad2 (p % 100))).data
      = '$' :: (decChars (p / 100) ++ ('.' :: (pad2 (p % 100)).data)) := by
  simp [String.data_append, repr_data_eq_decChars]

theorem default_render_take (p : Nat) :
    (decChars (p / 100) ++ ('.' :: (pad2 (p % 100)).data)).takeWhile Char.isDigit
      = decChars (p / 100) := by
  rw [takeWhile_append_of_all _ _ (decChars_all_digits (p / 100))]
  simp [List.takeWhile]

theorem default_render_drop (p : Nat) :
    (decChars (p / 100) ++ ('.' :: (pad2 (p % 100)).data)).dropWhile Char.isDigit
      = '.' :: (pad2 (p % 100)).data := by
  rw [dropWhile_append_of_all _ _ (decChars_all_digits (p / 100))]
  simp [List.dropWhile]

theorem format_price_default_matches (p : Nat) :
    matchesPricePattern ("$" ++ (Nat.repr (p / 100) ++ "." ++ pad2 (p % 100))) = true := by
  rw [matchesPricePattern, default_render_data p]
  simp only []
  rw [default_render_take, default_render_drop, pad2_data (p % 100) (priceMod_lt p)]
  simp [digitsDotTwo, decChars_ne_nil,
    digitChar_isDigit _ (by omega : p % 100 / 10 < 10),
    digitChar_isDigit _ (by omega : p % 100 % 10 < 10)]

theorem format_price_default_parseBack (p : Nat) :
    parsePriceBack ("$" ++ (Nat.repr (p / 100) ++ "." ++ pad2 (p % 100))) = some p := by
  rw [parsePriceBack, default_render_data p]
  simp only []
  rw [default_render_take, default_render_drop, pad2_data (p % 100) (priceMod_lt p)]
  have h2 : parseDigits [Nat.digitChar (p % 100 / 10), Nat.digitChar (p % 100 % 10)]
      = p % 100 := by
    simp [parseDigits, digitChar_toNat_sub _ (by omega : p % 100 / 10 < 10),
      digitChar_toNat_sub _ (by omega : p % 100 % 10 < 10)]
    omega
  simp [decChars_ne_nil, parseDigits_decChars, h2,
    digitChar_isDigit _ (by omega : p % 100 / 10 < 10),
    digitChar_isDigit _ (by omega : p % 100 % 10 < 10)]
  omega

/-! ## Supporting lemmas: unknown placeholders -/

theorem lookupEnv_eq_none (env : List (String × String)) (name : String)
    (h : (env.map Prod.fst).contains name = false) : lookupEnv name env = none := by
  induction env with
  | nil => rfl
  | cons kv rest ih =>
    simp only [List.map_cons, List.contains_cons, Bool.or_eq_false_iff] at h
    rw [lookupEnv]
    have hk : ¬ kv.1 = name := by
      intro he
      simp [he] at h
    simp [hk]
    exact ih h.2

theorem pyFormatAux_error_of_refsUnknown (env : List (String × String)) :
    ∀ n (l : List Char), l.length ≤ n → ∀ state,
      refsUnknown (env.map Prod.fst) state l = true →
      ∃ e, pyFormatAux env state l = .error e := by
  intro n
  induction n with
  | zero =>
    intro l hl state h
    rcases l with _ | ⟨c, cs⟩
    · cases state <;> simp [refsUnknown] at h
    · simp at hl
  | succ n ih =>
    intro l hl state h
    rcases l with _ | ⟨c, cs⟩
    · cases state <;> simp [refsUnknown] at h
    · have hcs : cs.length ≤ n := by simp at hl; omega
      have htail : cs.tail.length ≤ n := by
        have := List.length_tail cs
        omega
      cases state with
      | none =>
        by_cases hb : c = '{'
        · subst hb
          rw [refsUnknown] at h
          rw [pyFormatAux]
          simp only [if_pos rfl] at h ⊢
          by_cases hh : cs.head? = some '{'
          · simp only [if_pos hh] at h ⊢
            obtain ⟨e, he⟩ := ih cs.tail htail none h
            exact ⟨e, by rw [he]; rfl⟩
          · simp only [if_neg hh] at h ⊢
            exact ih cs hcs (some []) h
        · by_cases hb2 : c = '}'
          · subst hb2
            rw [refsUnknown] at h
            rw [pyFormatAux]
            simp only [if_neg (by decide : ¬('}' : Char) = '{'), if_pos rfl] at h ⊢
            by_cases hh : cs.head? = some '}'
            · simp only [if_pos hh] at h ⊢
              obtain ⟨e, he⟩ := ih cs.tail htail none h
              exact ⟨e, by rw [he]; rfl⟩
            · simp only [if_neg hh] at h
              simp at h
          · rw [refsUnknown] at h
            rw [pyFormatAux]
            simp only [if_neg hb, if_neg hb2] at h ⊢
            obtain ⟨e, he⟩ := ih cs hcs none h
            exact ⟨e, by rw [he]; rfl⟩
      | some acc =>
        by_cases hb : c = '}'
        · subst hb
          rw [refsUnknown] at h
          rw [pyFormatAux]
          simp only [if_pos rfl] at h ⊢
          rcases hlk : lookupEnv (String.mk acc.reverse) env with _ | v
          · exact ⟨_, rfl⟩
          · have hcontains : (env.map Prod.fst).contains (String.mk acc.reverse) = true := by
              by_contra hc
              rw [lookupEnv_eq_none env _ (by simpa using hc)] at hlk
              exact Option.noConfusion hlk
            rw [hcontains] at h
            simp at h
            obtain ⟨e, he⟩ := ih cs hcs none h
            exact ⟨e, by rw [he]; rfl⟩
        · rw [refsUnknown] at h
          rw [pyFormatAux]
          simp only [if_neg hb] at h ⊢
          exact ih cs hcs (some (c :: acc)) h

/-! ## Supporting lemmas: layout and pipeline -/

theorem computeLayout_lb (a b c d : Nat) :
    padding_left_px + 2 * padding_internal < (computeLayout a b c d).total_width := by
  simp [computeLayout, padding_left_px, padding_internal, barcode_width_px, DPI]
  omega

theorem createLabelRun_ok_dims
    (ean_code : String) (price : Nat) (output language price_format : String)
    (custom_name custom_producer : Option String)
    (http : String → HttpResponse) (barcodeRender : String → Except String Unit)
    (measureBody measureBig : String → Nat) (r : LabelResult)
    (h : (createLabelRun ean_code price output language price_format custom_name custom_producer
        http barcodeRender measureBody measureBig).2 = .ok r) :
    r.path = output ∧ r.height = height_px
      ∧ padding_left_px + 2 * padding_internal < r.width := by
  simp only [createLabelRun] at h
  rcases hres : (resolveProduct ean_code custom_name custom_producer
      (fetch_product_info ean_code language http)).2 with e | pi
  · rw [hres] at h
    simp [Bind.bind, Except.bind, Functor.map, Except.map] at h
  · rw [hres] at h
    rcases hfp : format_price price price_format with e | pt
    · rw [hfp] at h
      simp [Bind.bind, Except.bind, Functor.map, Except.map] at h
    · rw [hfp] at h
      rcases hbc : barcodeRender ean_code with e | u
      · rw [hbc] at h
        simp [Bind.bind, Except.bind, Functor.map, Except.map] at h
      · rw [hbc] at h
        simp only [Bind.bind, Except.bind, Functor.map, Except.map, pure, Except.pure,
          Except.ok.injEq] at h
        subst h
        exact ⟨rfl, rfl, computeLayout_lb _ _ _ _⟩

/-! ## Claim theorems -/

/-- Claim C1: in `create_label`, if both a name override and a producer
override are supplied (truthy), the product lookup is skipped entirely (no
network call, first component `false`) and the record is built wholly from
the overrides; otherwise the lookup is performed and whichever overrides
are present replace the corresponding fields of the looked-up record, so
in particular with a name-only override the producer field equals the
value from the lookup response.  The last conjunct ties the lookup-invoked
flag of `createLabelRun` to the resolution step. -/
theorem create_label_override_resolution
    (ean_code : String) (custom_name custom_producer : Option String)
    (lookupResult : Except String ProductRec) :
    (pyTruthy custom_name = true → pyTruthy custom_producer = true →
      resolveProduct ean_code custom_name custom_producer lookupResult
        = (false, .ok { name := (custom_name.getD ""), producer := (custom_producer.getD ""),
                        ean := ean_code }))
    ∧ (¬(pyTruthy custom_name = true ∧ pyTruthy custom_producer = true) →
        (resolveProduct ean_code custom_name custom_producer lookupResult).1 = true
        ∧ ∀ pi, lookupResult = .ok pi →
            (resolveProduct ean_code custom_name custom_producer lookupResult).2
              = .ok { name := (if pyTruthy custom_name then custom_name.getD "" else pi.name),
                      producer :=
                        (if pyTruthy custom_producer then custom_producer.getD "" else pi.producer),
                      ean := pi.ean })
    ∧ (∀ (price : Nat) (output language price_format : String)
        (http : String → HttpResponse) (barcodeRender : String → Except String Unit)
        (measureBody measureBig : String → Nat),
        (createLabelRun ean_code price output language price_format custom_name custom_producer
            http barcodeRender measureBody measureBig).1
          = (resolveProduct ean_code custom_name custom_producer
              (fetch_product_info ean_code language http)).1) := by
  refine ⟨?_, ?_, fun _ _ _ _ _ _ _ _ => rfl⟩
  · intro hn hp
    simp [resolveProduct, hn, hp]
  · intro hnp
    have hcond : (pyTruthy custom_name && pyTruthy custom_producer) = false := by
      cases h1 : pyTruthy custom_name <;> cases h2 : pyTruthy custom_producer <;> simp_all
    constructor
    · simp [resolveProduct, hcond]
    · intro pi hok
      subst hok
      simp only [resolveProduct, hcond, Bool.false_eq_true, if_false]
      cases hn : pyTruthy custom_name <;> cases hp : pyTruthy custom_producer <;>
        simp [Except.bind, hn, hp]

/-- Witness for C1: with both overrides the lookup is skipped even though
the stub lookup fails; with a name-only override the producer comes from
the lookup response. -/
theorem create_label_override_resolution_witness :
    resolveProduct "5449000000996" (some "Name") (some "Brand") (.error "net down")
      = (false, .ok { name := "Name", producer := "Brand", ean := "5449000000996" })
    ∧ (resolveProduct "5449000000996" (some "Name") none
        (.ok { name := "N", producer := "P", ean := "5449000000996" })).2
      = .ok { name := "Name", producer := "P", ean := "5449000000996" } := by
  constructor
  · have h := (create_label_override_resolution "5449000000996" (some "Name") (some "Brand")
      (.error "net down")).1 (by decide) (by decide)
    simpa using h
  · have h := ((create_label_override_resolution "5449000000996" (some "Name") none
      (.ok { name := "N", producer := "P", ean := "5449000000996" })).2.1
      (by simp [pyTruthy])).2 { name := "N", producer := "P", ean := "5449000000996" } rfl
    simpa [pyTruthy, (by decide : "Name".isEmpty = false)] using h

/-- Claim C2: for every input, the composed canvas has height exactly
`48 mm × 8 px/mm = 384` pixels; the left region width is the maximum of
the name, producer, EAN-line and barcode widths plus `2 ×` internal
padding (24 px each side); the right region width is the price text width
plus `2 ×` internal padding; the total width is left margin (40 px) plus
the two region widths; hence the total width is strictly greater than
left margin plus `2 ×` internal padding. -/
theorem create_label_layout_dimensions :
    (∀ name_width producer_width ean_width price_width : Nat,
      (computeLayout name_width producer_width ean_width price_width).height = 48 * 8
      ∧ (computeLayout name_width producer_width ean_width price_width).left_width
          = max (max (max name_width producer_width) ean_width) barcode_width_px
            + 2 * padding_internal
      ∧ (computeLayout name_width producer_width ean_width price_width).right_width
          = price_width + 2 * padding_internal
      ∧ (computeLayout name_width producer_width ean_width price_width).total_width
          = padding_left_px
            + (computeLayout name_width producer_width ean_width price_width).left_width
            + (computeLayout name_width producer_width ean_width price_width).right_width
      ∧ padding_left_px + 2 * padding_internal
          < (computeLayout name_width producer_width ean_width price_width).total_width)
    ∧ ∀ (ean_code : String) (price : Nat) (output language price_format : String)
        (custom_name custom_producer : Option String)
        (http : String → HttpResponse) (barcodeRender : String → Except String Unit)
        (measureBody measureBig : String → Nat) (r : LabelResult),
        (createLabelRun ean_code price output language price_format custom_name custom_producer
            http barcodeRender measureBody measureBig).2 = .ok r →
        r.height = 48 * 8 ∧ padding_left_px + 2 * padding_internal < r.width := by
  constructor
  · intro a b c d
    refine ⟨rfl, ?_, ?_, rfl, computeLayout_lb a b c d⟩
    · simp [computeLayout]; omega
    · simp [computeLayout]; omega
  · intro ean_code price output language price_format custom_name custom_producer http
      barcodeRender measureBody measureBig r h
    obtain ⟨-, hh, hw⟩ := createLabelRun_ok_dims ean_code price output language price_format
      custom_name custom_producer http barcodeRender measureBody measureBig r h
    exact ⟨hh, hw⟩

/-- Witness for C2: a complete successful run (identifier
`"5449000000996"`, price `299`) produces height `384 = 48 * 8` and width
`376 > 40 + 48`. -/
theorem create_label_layout_dimensions_witness :
    (⟨"label.png", 376, 384⟩ : LabelResult).height = 48 * 8
    ∧ padding_left_px + 2 * padding_internal < (⟨"label.png", 376, 384⟩ : LabelResult).width := by
  have hrun : (createLabelRun "5449000000996" 299 "label.png" "world" "${price}"
      (some "Coca-Cola") (some "Coca-Cola") (fun _ => ⟨200, ⟨some 1, none⟩⟩)
      (fun _ => .ok ()) (fun _ => 0) (fun _ => 0)).2 = .ok ⟨"label.png", 376, 384⟩ := by
    have hfp := format_price_default_eq 299
    have hne : "Coca-Cola".isEmpty = false := by decide
    simp [createLabelRun, resolveProduct, pyTruthy, hne, hfp, computeLayout, padding_left_px,
      padding_internal, barcode_width_px, height_px, DPI, Bind.bind, Except.bind,
      Functor.map, Except.map, pure, Except.pure]
  exact create_label_layout_dimensions.2 "5449000000996" 299 "label.png" "world" "${price}"
    (some "Coca-Cola") (some "Coca-Cola") (fun _ => ⟨200, ⟨some 1, none⟩⟩)
    (fun _ => .ok ()) (fun _ => 0) (fun _ => 0) ⟨"label.png", 376, 384⟩ hrun

/-- Claim C3: `format_price` substitutes `maj = p / 100`, `min = p % 100`
zero-padded to two digits, and `price = "maj.min"` with a dot separator;
in particular `format(0, "${price}") = "$0.00"`,
`format(299, "${price}") = "$2.99"`, and
`format(150, "{maj}.{min} zł") = "1.50 zł"`. -/
theorem format_price_template_substitution :
    (∀ (p : Nat) (t : String),
      format_price p t
        = pyFormat t [("maj", Nat.repr (p / 100)), ("min", pad2 (p % 100)),
            ("price", Nat.repr (p / 100) ++ "." ++ pad2 (p % 100))])
    ∧ format_price 0 "${price}" = .ok "$0.00"
    ∧ format_price 299 "${price}" = .ok "$2.99"
    ∧ format_price 150 "{maj}.{min} zł" = .ok "1.50 zł" := by
  refine ⟨fun p t => rfl, ?_, ?_, ?_⟩ <;>
    (simp [format_price, pyFormat, pyFormatAux, lookupEnv, pad2, Nat.repr, Nat.toDigits,
      Nat.toDigitsCore, Nat.digitChar]; rfl)

/-- Claim C4: for every non-negative integer `p`, the string
`format_price p "${price}"` matches `^\$\d+\.\d\x7b2\x7d$`, and parsing the
major and minor parts back out and computing `maj * 100 + min` recovers
exactly `p`. -/
theorem format_price_pattern_roundtrip (p : Nat) :
    ∃ s, format_price p "${price}" = .ok s ∧ matchesPricePattern s = true
      ∧ parsePriceBack s = some p :=
  ⟨_, format_price_default_eq p, format_price_default_matches p, format_price_default_parseBack p⟩

/-- Claim C5: `fetch_product_info` errors when the HTTP status is not 200;
errors with the not-found message when the body's `status` field is not 1;
and on success returns the identifier together with name and producer
defaulting to `"Unknown Product"` / `"Unknown Brand"` when the fields are
absent from the response. -/
theorem fetch_product_info_status_and_defaults
    (ean_code language : String) (http : String → HttpResponse) :
    ((http (lookupUrl ean_code language)).status_code ≠ 200 →
      fetch_product_info ean_code language http
        = .error ("Failed to fetch product info: HTTP "
            ++ Nat.repr (http (lookupUrl ean_code language)).status_code))
    ∧ ((http (lookupUrl ean_code language)).status_code = 200 →
        (http (lookupUrl ean_code language)).body.status ≠ some 1 →
        fetch_product_info ean_code language http
          = .error ("Product not found for EAN: " ++ ean_code))
    ∧ ((http (lookupUrl ean_code language)).status_code = 200 →
        (http (lookupUrl ean_code language)).body.status = some 1 →
        fetch_product_info ean_code language http
          = .ok { name := (((http (lookupUrl ean_code language)).body.product.getD
                    ⟨none, none⟩).product_name.getD "Unknown Product"),
                  producer := (((http (lookupUrl ean_code language)).body.product.getD
                    ⟨none, none⟩).brands.getD "Unknown Brand"),
                  ean := ean_code }) := by
  refine ⟨fun h1 => ?_, fun h1 h2 => ?_, fun h1 h2 => ?_⟩
  · simp [fetch_product_info, h1]
  · simp [fetch_product_info, h1, h2]
  · simp [fetch_product_info, h1, h2]

/-- Witness for C5: a 404 response, a found-nothing body, and a successful
body with both product fields absent. -/
theorem fetch_product_info_status_and_defaults_witness :
    fetch_product_info "5449000000996" "world" (fun _ => ⟨404, ⟨none, none⟩⟩)
      = .error ("Failed to fetch product info: HTTP " ++ Nat.repr 404)
    ∧ fetch_product_info "5449000000996" "world" (fun _ => ⟨200, ⟨some 0, none⟩⟩)
      = .error ("Product not found for EAN: " ++ "5449000000996")
    ∧ fetch_product_info "5449000000996" "world" (fun _ => ⟨200, ⟨some 1, none⟩⟩)
      = .ok { name := "Unknown Product", producer := "Unknown Brand", ean := "5449000000996" } :=
  ⟨(fetch_product_info_status_and_defaults "5449000000996" "world"
      (fun _ => ⟨404, ⟨none, none⟩⟩)).1 (by decide),
   (fetch_product_info_status_and_defaults "5449000000996" "world"
      (fun _ => ⟨200, ⟨some 0, none⟩⟩)).2.1 rfl (by decide),
   (fetch_product_info_status_and_defaults "5449000000996" "world"
      (fun _ => ⟨200, ⟨some 1, none⟩⟩)).2.2 rfl rfl⟩

/-- Claim C6: the lookup host is `"{hint}.openfoodfacts.org"` when the
locale hint is present (non-empty) and not the sentinel `"world"`, and the
canonical `"world.openfoodfacts.org"` otherwise; the request URL is always
`"https://{host}/api/v0/product/{identifier}.json"`. -/
theorem lookup_host_and_url (language ean_code : String) :
    (¬language.isEmpty → language ≠ "world" →
      lookupDomain language = language ++ ".openfoodfacts.org")
    ∧ (language.isEmpty = true ∨ language = "world" →
      lookupDomain language = "world.openfoodfacts.org")
    ∧ lookupUrl ean_code language
        = "https://" ++ lookupDomain language ++ "/api/v0/product/" ++ ean_code ++ ".json" := by
  refine ⟨fun h1 h2 => ?_, fun h => ?_, rfl⟩
  · simp [lookupDomain, h1, h2]
  · rcases h with h | h <;> simp [lookupDomain, h]

/-- Witness for C6: a concrete locale hint `"pl"` is prefixed, the
sentinel `"world"` is not, and the URL is assembled from the host. -/
theorem lookup_host_and_url_witness :
    lookupDomain "pl" = "pl" ++ ".openfoodfacts.org"
    ∧ lookupDomain "world" = "world.openfoodfacts.org"
    ∧ lookupUrl "5449000000996" "pl"
      = "https://" ++ lookupDomain "pl" ++ "/api/v0/product/" ++ "5449000000996" ++ ".json" :=
  ⟨(lookup_host_and_url "pl" "5449000000996").1 (by decide) (by decide),
   (lookup_host_and_url "world" "5449000000996").2.1 (Or.inr rfl),
   (lookup_host_and_url "pl" "5449000000996").2.2⟩

/-- Claim C7: for every price and every template referencing a placeholder
name other than `maj`, `min`, or `price` (as decided by `refsUnknown` over
the same field grammar), `format_price` fails with an error rather than
returning a string. -/
theorem format_price_unknown_placeholder (p : Nat) (template : String)
    (h : refsUnknown ["maj", "min", "price"] none template.data = true) :
    ∃ e, format_price p template = .error e :=
  pyFormatAux_error_of_refsUnknown _ template.data.length template.data le_rfl none h

/-- Witness for C7: the template `"{bogus}"` is rejected. -/
theorem format_price_unknown_placeholder_witness :
    ∃ e, format_price 7 "{bogus}" = .error e :=
  format_price_unknown_placeholder 7 "{bogus}" (by simp [refsUnknown])

/-- Claim C8: on every failure of the pipeline (lookup, encoding or format
error) with valid CLI inputs, the top level catches the error, prints the
single line `Error: <message>`, returns exit code 1, and writes no output
file: in the model the file value is produced only in the success branch,
after the full layout is computed. -/
theorem pipeline_failure_no_output
    (ean : String) (price : Int) (output language price_format : String)
    (custom_name custom_producer : Option String)
    (http : String → HttpResponse) (barcodeRender : String → Except String Unit)
    (measureBody measureBig : String → Nat) (e : String)
    (hean : pyIsDigit ean = true) (hlen : ean.length = 13) (hprice : 0 ≤ price)
    (herr : (createLabelRun ean price.toNat output language price_format custom_name
        custom_producer http barcodeRender measureBody measureBig).2 = .error e) :
    mainRun ean price output language price_format custom_name custom_producer
        http barcodeRender measureBody measureBig
      = { exitCode := 1, lines := ["Error: " ++ e], files := [] } := by
  have hnlt : ¬ price < 0 := by omega
  simp [mainRun, hean, hlen, hnlt, herr]

/-- Witness for C8: a lookup that answers HTTP 500 makes the run exit with
code 1, one error line, and no file written. -/
theorem pipeline_failure_no_output_witness :
    mainRun "5449000000996" 0 "label.png" "world" "${price}" none none
        (fun _ => ⟨500, ⟨none, none⟩⟩) (fun _ => .ok ()) (fun _ => 0) (fun _ => 0)
      = { exitCode := 1,
          lines := ["Error: " ++ ("Failed to fetch product info: HTTP " ++ Nat.repr 500)],
          files := [] } :=
  pipeline_failure_no_output "5449000000996" 0 "label.png" "world" "${price}" none none
    (fun _ => ⟨500, ⟨none, none⟩⟩) (fun _ => .ok ()) (fun _ => 0) (fun _ => 0)
    ("Failed to fetch product info: HTTP " ++ Nat.repr 500)
    (by decide) (by decide) (by decide) rfl

/-- Claim C9: the CLI rejects every identifier that is not exactly 13
numeric characters, and every negative price, with a usage error (exit 2)
before any lookup or rendering work — the result is the same for every
network/barcode/measure oracle — and no output file is created; on a
successful run it exits with code 0. -/
theorem cli_validation_and_exit
    (ean : String) (price : Int) (output language price_format : String)
    (custom_name custom_producer : Option String)
    (http : String → HttpResponse) (barcodeRender : String → Except String Unit)
    (measureBody measureBig : String → Nat) :
    (¬(pyIsDigit ean = true ∧ ean.length = 13) →
      mainRun ean price output language price_format custom_name custom_producer
          http barcodeRender measureBody measureBig
        = { exitCode := 2, lines := ["EAN must be exactly 13 digits"], files := [] })
    ∧ (pyIsDigit ean = true → ean.length = 13 → price < 0 →
      mainRun ean price output language price_format custom_name custom_producer
          http barcodeRender measureBody measureBig
        = { exitCode := 2, lines := ["Price must be non-negative"], files := [] })
    ∧ (∀ r : LabelResult, pyIsDigit ean = true → ean.length = 13 → 0 ≤ price →
        (createLabelRun ean price.toNat output language price_format custom_name
            custom_producer http barcodeRender measureBody measureBig).2 = .ok r →
        (mainRun ean price output language price_format custom_name custom_producer
            http barcodeRender measureBody measureBig).exitCode = 0
        ∧ (mainRun ean price output language price_format custom_name custom_producer
            http barcodeRender measureBody measureBig).files = [r.path]) := by
  refine ⟨fun h => ?_, fun h1 h2 h3 => ?_, fun r h1 h2 h3 hok => ?_⟩
  · rcases Bool.eq_false_or_eq_true (pyIsDigit ean) with hd | hd
    · have hl : ean.length ≠ 13 := fun hc => h ⟨hd, hc⟩
      simp [mainRun, hd, hl]
    · simp [mainRun, hd]
  · simp [mainRun, h1, h2, h3]
  · have hnlt : ¬ price < 0 := by omega
    constructor <;> simp [mainRun, h1, h2, hnlt, hok]

/-- Witness for C9: the short identifier `"123"` and the negative price
`-1` are rejected with usage errors and no file; a complete valid run
exits with code 0. -/
theorem cli_validation_and_exit_witness :
    (mainRun "123" 299 "label.png" "world" "${price}" none none
        (fun _ => ⟨200, ⟨some 1, none⟩⟩) (fun _ => .ok ()) (fun _ => 0) (fun _ => 0)
      = { exitCode := 2, lines := ["EAN must be exactly 13 digits"], files := [] })
    ∧ (mainRun "5449000000996" (-1) "label.png" "world" "${price}" none none
        (fun _ => ⟨200, ⟨some 1, none⟩⟩) (fun _ => .ok ()) (fun _ => 0) (fun _ => 0)
      = { exitCode := 2, lines := ["Price must be non-negative"], files := [] })
    ∧ (mainRun "5449000000996" 299 "label.png" "world" "${price}" (some "Coca-Cola")
        (some "Coca-Cola") (fun _ => ⟨200, ⟨some 1, none⟩⟩) (fun _ => .ok ())
        (fun _ => 0) (fun _ => 0)).exitCode = 0 := by
  refine ⟨?_, ?_, ?_⟩
  · exact (cli_validation_and_exit "123" 299 "label.png" "world" "${price}" none none
      (fun _ => ⟨200, ⟨some 1, none⟩⟩) (fun _ => .ok ()) (fun _ => 0) (fun _ => 0)).1
      (by intro h; exact absurd h.2 (by decide))
  · exact (cli_validation_and_exit "5449000000996" (-1) "label.png" "world" "${price}" none none
      (fun _ => ⟨200, ⟨some 1, none⟩⟩) (fun _ => .ok ()) (fun _ => 0) (fun _ => 0)).2.1
      (by decide) (by decide) (by decide)
  · have hrun : (createLabelRun "5449000000996" (Int.toNat 299) "label.png" "world" "${price}"
        (some "Coca-Cola") (some "Coca-Cola") (fun _ => ⟨200, ⟨some 1, none⟩⟩)
        (fun _ => .ok ()) (fun _ => 0) (fun _ => 0)).2 = .ok ⟨"label.png", 376, 384⟩ := by
      have hfp := format_price_default_eq 299
      have hne : "Coca-Cola".isEmpty = false := by decide
      simp [createLabelRun, resolveProduct, pyTruthy, hne, hfp, computeLayout, padding_left_px,
        padding_internal, barcode_width_px, height_px, DPI, Bind.bind, Except.bind,
        Functor.map, Except.map, pure, Except.pure]
    exact ((cli_validation_and_exit "5449000000996" 299 "label.png" "world" "${price}"
      (some "Coca-Cola") (some "Coca-Cola") (fun _ => ⟨200, ⟨some 1, none⟩⟩) (fun _ => .ok ())
      (fun _ => 0) (fun _ => 0)).2.2 ⟨"label.png", 376, 384⟩
      (by decide) (by decide) (by decide) hrun).1

/-- Claim C10: when both overrides are supplied as empty strings,
`create_label` still performs the network lookup (the skip condition tests
truthiness, not presence), neither empty-string override is applied, and
the whole run is identical to passing no overrides at all. -/
theorem empty_string_overrides_no_effect
    (ean_code : String) (lookupResult : Except String ProductRec)
    (price : Nat) (output language price_format : String)
    (http : String → HttpResponse) (barcodeRender : String → Except String Unit)
    (measureBody measureBig : String → Nat) :
    resolveProduct ean_code (some "") (some "") lookupResult
      = resolveProduct ean_code none none lookupResult
    ∧ (resolveProduct ean_code (some "") (some "") lookupResult).1 = true
    ∧ createLabelRun ean_code price output language price_format (some "") (some "")
        http barcodeRender measureBody measureBig
      = createLabelRun ean_code price output language price_format none none
        http barcodeRender measureBody measureBig := by
  have hpt : pyTruthy (some "") = false := by decide
  have hpn : pyTruthy none = false := rfl
  have h1 : ∀ lr : Except String ProductRec,
      resolveProduct ean_code (some "") (some "") lr = resolveProduct ean_code none none lr := by
    intro lr
    cases lr <;> simp [resolveProduct, hpt, hpn]
  refine ⟨h1 lookupResult, by simp [resolveProduct, hpt], ?_⟩
  simp only [createLabelRun, h1]
